import Mathlib

/-
Shallow embedding of src/kvm_net_stress.py (marwano/tools).

Modelling conventions:
* Wall-clock readings of time.time() are rationals.
* File contents are modelled at the granularity the program reads them: a
  wget output file is its list of lines after text().strip().splitlines(),
  the ping log is its list of lines together with its byte size
  (PING_FILE.size), a virsh listing is its list of output lines after
  strip().splitlines().
* The body of each polling loop reads the outside world once per pass; an
  Obs record packages everything one pass of the while-loop in stress reads
  (p.poll(), the wget output files, PING_FILE.size, PING_FILE.lines()).
  The kvm_state / wget probes of restart_guest are oracles indexed by the
  attempt number.  Unbounded while-loops take a fuel argument; exhausting
  the fuel models "the loop is still polling", never a failure result.
* Side effects performed through subprocess / logging are recorded as
  Event values, in program order.
* A Python call that raises is modelled with Option (none = it raised).
-/

namespace KvmNetStress

/- Python str.split whitespace (space, tab, newline, carriage return,
vertical tab, form feed). -/
def pyIsSpace (c : Char) : Bool :=
  c == ' ' || c == '\t' || c == '\n' || c == '\r' || c == '\x0b' || c == '\x0c'

def dropWS : List Char → List Char
  | [] => []
  | c :: cs => if pyIsSpace c then dropWS cs else c :: cs

def takeTok : List Char → List Char × List Char
  | [] => ([], [])
  | c :: cs =>
    if pyIsSpace c then ([], c :: cs)
    else
      let r := takeTok cs
      (c :: r.1, r.2)

/- Python s.split(None, 2): at most two splits on runs of whitespace,
leading whitespace of every piece (including the final remainder) skipped,
empty pieces dropped. -/
def splitNone2 (s : List Char) : List (List Char) :=
  let s1 := dropWS s
  if s1.isEmpty then []
  else
    let p1 := takeTok s1
    let r1 := dropWS p1.2
    if r1.isEmpty then [p1.1]
    else
      let p2 := takeTok r1
      let r2 := dropWS p2.2
      if r2.isEmpty then [p1.1, p2.1]
      else [p1.1, p2.1, r2]

/- needle occurs as a contiguous segment of hay. -/
def listInfix (needle : List Char) : List Char → Bool
  | [] => needle.isEmpty
  | c :: cs => needle.isPrefixOf (c :: cs) || listInfix needle cs

/- Python needle in hay (substring test). -/
def pyIn (needle hay : String) : Bool := listInfix needle.toList hay.toList

/- Python s.startswith(pfx). -/
def pyStarts (pfx s : String) : Bool := pfx.toList.isPrefixOf s.toList

/- Python s.strip() (used implicitly by int()). -/
def pyTrim (cs : List Char) : List Char := (dropWS ((dropWS cs).reverse)).reverse

/- A nonempty all-digit character list read as a number. -/
def digitsToNat (cs : List Char) : Option ℕ :=
  if cs.isEmpty then none
  else if cs.all Char.isDigit then
    some (cs.foldl (fun a c => a * 10 + (c.toNat - 48)) 0)
  else none

/- Python s.split(sep) for a one-character separator. -/
def pySplit1 (sep : Char) : List Char → List (List Char)
  | [] => [[]]
  | c :: cs =>
    let r := pySplit1 sep cs
    if c = sep then [] :: r
    else (c :: r.headD []) :: r.tail

/- Python int(s): optional surrounding whitespace, optional sign, digits;
none models the ValueError raised on anything else. -/
def pyInt (s : String) : Option ℤ :=
  match pyTrim s.toList with
  | '-' :: rest => (digitsToNat rest).map (fun n => -(n : ℤ))
  | '+' :: rest => (digitsToNat rest).map (fun n => (n : ℤ))
  | cs => (digitsToNat cs).map (fun n => (n : ℤ))

/- Constants of the script (lines 19-20), and its literal strings. -/
def TIMEOUT : ℚ := 3
def LOG_DELAY : ℚ := 1/2
def saved_marker : String := "\x60/dev/null\x27 saved"
def off_state : String := "shut off"
def could_not_detect : String := "COULD NOT DETECT STATE"
def fatal_msg : String := "this should never happen"

/- Scratch files created by the script: POST_FILE, ARG_FILE, PING_FILE at
module load (lines 16-18) and one wget output file per worker (line 162). -/
inductive ScratchFile
  | post
  | arg
  | ping
  | wget (i : ℕ)
  deriving DecidableEq

/- External side effects of the script, in program order. -/
inductive Event
  | batchStart (pid : ℕ)
  | statusLog
  | sleepEv (d : ℚ)
  | hangLog (pf : Bool)
  | killCmd (cmd : String)
  | recoveryCompleted
  | wgetExitLog (rc : ℤ)
  | sysExit (msg : String)
  | shutdownCmd (guest : String)
  | statePoll (st : String)
  | waitLog
  | startCmd (guest : String)
  | wgetAttempt (rc : ℤ)
  | wgetFailLog
  | removeF (f : ScratchFile)
  | pingKill
  deriving DecidableEq

/- kvm_state (lines 69-76).  Input: the lines of
check_output('virsh list --all').strip().splitlines().  The first two
header lines are dropped, each remaining line is split with
split(None, 2); the comprehension unpacks every triple, so a line that
does not split into exactly three fields raises ValueError (= none). -/
def kvm_state (output_lines : List String) (guest : String) : Option String :=
  let lines := (output_lines.drop 2).map (fun l => splitNone2 l.toList)
  if lines.all (fun t => t.length == 3) then
    let hits := lines.filterMap (fun t =>
      match t with
      | [_, name, st] => if String.mk name = guest then some (String.mk st) else none
      | _ => none)
    some (hits.headD could_not_detect)
  else
    none

/- The second component of a listing line as kvm_state reads it. -/
def listing_name (l : String) : String :=
  String.mk ((splitNone2 l.toList).getD 1 [])

/- The shutdown-wait loop of restart_guest (lines 82-87): poll kvm_state,
break on 'shut off', otherwise log, sleep 0.5 and poll again.  states k is
the k-th kvm_state result; the result is the index of the poll that saw
'shut off', or none if the fuel ran out (the real loop just keeps going). -/
def shutdown_poll (states : ℕ → String) : ℕ → ℕ → List Event × Option ℕ
  | _, 0 => ([], none)
  | k, fuel + 1 =>
    if states k = off_state then ([Event.statePoll (states k)], some k)
    else
      let r := shutdown_poll states (k + 1) fuel
      (Event.statePoll (states k) :: Event.waitLog :: Event.sleepEv (1/2) :: r.1, r.2)

/- Success test of one webserver probe (line 96): returncode zero and the
saved marker in the captured stderr. -/
def web_ok (p : ℤ × String) : Bool := p.1 == 0 && pyIn saved_marker p.2

/- The webserver-wait loop of restart_guest (lines 91-99): log, run wget
with a 1 second timeout, return on success, otherwise log the failure,
sleep 1 and retry.  probes k is the (returncode, stderr) of attempt k. -/
def webserver_poll (probes : ℕ → ℤ × String) : ℕ → ℕ → List Event × Option ℕ
  | _, 0 => ([], none)
  | k, fuel + 1 =>
    if web_ok (probes k) then ([Event.waitLog, Event.wgetAttempt (probes k).1], some k)
    else
      let r := webserver_poll probes (k + 1) fuel
      (Event.waitLog :: Event.wgetAttempt (probes k).1 :: Event.wgetFailLog ::
        Event.sleepEv 1 :: r.1, r.2)

/- restart_guest (lines 79-99): issue virsh shutdown once, wait for
'shut off', sleep 1, issue virsh start once, wait for the webserver.
The Bool is true when the final return (line 97) was reached within the
given fuel. -/
def restart_guest (guest : String) (states : ℕ → String) (probes : ℕ → ℤ × String)
    (fuel1 fuel2 : ℕ) : List Event × Bool :=
  let sd := shutdown_poll states 0 fuel1
  match sd.2 with
  | none => (Event.shutdownCmd guest :: sd.1, false)
  | some _ =>
    let ws := webserver_poll probes 0 fuel2
    (Event.shutdownCmd guest :: sd.1 ++ Event.sleepEv 1 :: Event.startCmd guest :: ws.1,
     ws.2.isSome)

/- The stats dict of main (line 158). -/
structure Stats where
  seq : ℕ
  down : ℤ
  up : ℕ
  completed : ℕ
  hanged : ℕ
  last_hang : ℚ
  start : ℚ
  deriving DecidableEq

/- The local detector state of stress (lines 104-105, 134-136). -/
structure DetState where
  last_change : ℚ
  last_size : ℕ
  deriving DecidableEq

/- Everything one pass of the while-loop in stress reads from the outside
world: p.poll(), the wget output files (their stripped lines; only read
when the process has exited), PING_FILE.size and PING_FILE.lines(). -/
structure Obs where
  now : ℚ
  exited : Option ℤ
  wgetLines : List (List String)
  ping_size : ℕ
  pingLines : List String

/- Per-run configuration: target = urlparse(url).netloc, POST_FILE.size
and proc_count (used by the stats update on completion). -/
structure Config where
  target : String
  post_size : ℕ
  proc_count : ℕ
  deriving DecidableEq

/- Line 113: the last line of each wget output file, or '' for an empty
file. -/
def final_lines (files : List (List String)) : List String :=
  files.map (fun ls => ls.getLastD "")

/- Line 114: every final line contains the saved marker. -/
def all_saved (files : List (List String)) : Bool :=
  (final_lines files).all (fun l => pyIn saved_marker l)

/- Line 116: int(i.split('/')[-1].split(']')[0]) for one final line. -/
def wget_down (line : String) : Option ℤ :=
  pyInt (String.mk ((pySplit1 ']' ((pySplit1 '/' line.toList).getLastD [])).headD []))

/- Lines 116-118: the stats update of the success branch; none models the
ValueError when one of the final lines does not parse. -/
def completed_update (stats : Stats) (files : List (List String))
    (post_size proc_count : ℕ) : Option Stats :=
  let downs := (final_lines files).map wget_down
  if downs.all Option.isSome then
    some { stats with
      down := stats.down + (downs.filterMap id).sum,
      up := stats.up + post_size * proc_count,
      completed := stats.completed + 1 }
  else none

/- Line 125: the ping file has lines and its last line does not start with
'64 bytes from <target>'. -/
def ping_failed (target : String) (pingLines : List String) : Bool :=
  !pingLines.isEmpty && !(pyStarts ("64 bytes from " ++ target) (pingLines.getLastD ""))

/- First disjunct of line 126: the polled size (PING_FILE.size, line 124)
is unchanged and more than TIMEOUT seconds passed since the last observed
change. -/
def no_progress (st : DetState) (o : Obs) : Bool :=
  o.ping_size == st.last_size && decide (o.now - st.last_change > TIMEOUT)

/- Lines 127-128. -/
def hang_stats (stats : Stats) (now : ℚ) : Stats :=
  { stats with last_hang := now, hanged := stats.hanged + 1 }

/- Result of one pass of the while-loop in stress. -/
inductive StepRes
  | cont (st : DetState)
  | completedRes (stats2 : Option Stats)
  | fatalRes
  | hungRes (noProg pf : Bool) (stats2 : Stats)
  deriving DecidableEq

/- One pass of the while-loop of stress (lines 110-144), for a process
with the given pid:
* p.poll() not None (line 111): success branch iff returncode == 0 and
  all final lines carry the saved marker (line 115), else log and
  sys.exit (lines 121-122);
* otherwise the hang test of line 126 on PING_FILE.size and the last ping
  line; a hang updates the stats (127-128), logs, kills the xargs process
  by pid (line 131) and runs restart_guest (line 132);
* otherwise lastchange/last_size are refreshed on a size change
  (lines 134-136), a status line is logged and the loop sleeps LOG_DELAY.
-/
def stress_step (cfg : Config) (pid : ℕ) (st : DetState) (stats : Stats) (o : Obs) :
    List Event × StepRes :=
  match o.exited with
  | some rc =>
    if rc = 0 ∧ all_saved o.wgetLines = true then
      ([], StepRes.completedRes (completed_update stats o.wgetLines cfg.post_size cfg.proc_count))
    else
      ([Event.wgetExitLog rc, Event.sysExit fatal_msg], StepRes.fatalRes)
  | none =>
    if (no_progress st o || ping_failed cfg.target o.pingLines) = true then
      ([Event.hangLog (ping_failed cfg.target o.pingLines),
        Event.killCmd ("kill -9 " ++ toString pid), Event.recoveryCompleted],
       StepRes.hungRes (no_progress st o) (ping_failed cfg.target o.pingLines)
         (hang_stats stats o.now))
    else
      ([Event.statusLog, Event.sleepEv LOG_DELAY],
       StepRes.cont (if o.ping_size == st.last_size then st else DetState.mk o.now o.ping_size))

/- Outcome of a whole stress call on a finite observation trace. -/
inductive RunOut
  | pending (st : DetState) (stats : Stats)
  | completedOut (stats2 : Option Stats)
  | fatalOut
  | hungOut (noProg pf : Bool) (stats2 : Stats)
  deriving DecidableEq

def RunOut.isCompleted : RunOut → Bool
  | RunOut.completedOut _ => true
  | _ => false

/- The while-loop of stress over a finite trace of observations.  pending
means the trace ran out with the loop still polling. -/
def stress_run (cfg : Config) (pid : ℕ) : DetState → Stats → List Obs → List Event × RunOut
  | st, stats, [] => ([], RunOut.pending st stats)
  | st, stats, o :: rest =>
    match stress_step cfg pid st stats o with
    | (evs, StepRes.cont st2) =>
      let r := stress_run cfg pid st2 stats rest
      (evs ++ r.1, r.2)
    | (evs, StepRes.completedRes s2) => (evs, RunOut.completedOut s2)
    | (evs, StepRes.fatalRes) => (evs, RunOut.fatalOut)
    | (evs, StepRes.hungRes np pf s2) => (evs, RunOut.hungOut np pf s2)

/- One iteration of the main loop (lines 164-166): the xargs pid, the
start-of-iteration clock reading (stress initialises last_change with it
and last_size with 0, lines 104-105) and the iteration's observations. -/
structure IterIn where
  pid : ℕ
  t0 : ℚ
  obs : List Obs

/- The main loop (lines 164-166): bump seq, run stress; a completed or
hung iteration loops again with the updated stats, sys.exit or a raised
ValueError ends the session, and a pending iteration has consumed the
whole trace. -/
def stress_loop (cfg : Config) : Stats → List IterIn → List Event
  | _, [] => []
  | stats, it :: rest =>
    let r := stress_run cfg it.pid (DetState.mk it.t0 0) { stats with seq := stats.seq + 1 } it.obs
    Event.batchStart it.pid ::
      (r.1 ++
        match r.2 with
        | RunOut.completedOut (some s2) => stress_loop cfg s2 rest
        | RunOut.hungOut _ _ s2 => stress_loop cfg s2 rest
        | _ => [])

/- The scratch files in existence once main reaches its try block
(lines 16-18 and 162). -/
def created_files (proc_count : ℕ) : List ScratchFile :=
  ScratchFile.post :: ScratchFile.arg :: ScratchFile.ping ::
    (List.range proc_count).map ScratchFile.wget

/- The finally block of main (lines 167-170): remove
[POST_FILE, ARG_FILE, PING_FILE] + wget_files, then kill the ping
process. -/
def cleanup_events (proc_count : ℕ) : List Event :=
  (([ScratchFile.post, ScratchFile.arg, ScratchFile.ping] ++
      (List.range proc_count).map ScratchFile.wget).map Event.removeF) ++ [Event.pingKill]

/- How the try block of main ended: normally it cannot (the loop is
infinite), so the possibilities are the SystemExit of line 122, an
interrupt delivered to the interpreter at an arbitrary point of an
iteration (mid-poll or mid-recovery), or another exception such as the
ValueError of line 116. -/
inductive BodyEnd
  | sysExitEnd
  | interrupted
  | errorEnd

/- main's try/finally (lines 163-170): whatever the body did and however
it ended, the finally block runs. -/
def main_run (proc_count : ℕ) (body : List Event) (_ending : BodyEnd) : List Event :=
  body ++ cleanup_events proc_count

/- Modelled from the spec: progressSize() as the spec describes it
(section 4.1: "total bytes written to all worker sinks so far"), for
comparison with the size the source actually polls (PING_FILE.size,
line 124).  The byte count of a worker sink is the total length of its
lines. -/
def spec_progressSize (o : Obs) : ℕ :=
  (o.wgetLines.map (fun ls => (ls.map String.length).sum)).sum

/- A kill -9 command addresses a whole process group only when its pid
argument is negated (kill -9 -PGID); with a plain pid it signals that
single process. -/
def kills_group (cmd : String) : Bool := pyStarts "kill -9 -" cmd

/- Number of virsh shutdown invocations in a trace. -/
def shutdown_count (evs : List Event) : ℕ :=
  evs.countP (fun e => match e with | Event.shutdownCmd _ => true | _ => false)

/- Events of the shutdown-wait loop that polls k times before seeing
'shut off' at poll index a + k, counted from attempt a. -/
def off_wait_events (states : ℕ → String) : ℕ → ℕ → List Event
  | a, 0 => [Event.statePoll (states a)]
  | a, l + 1 =>
    Event.statePoll (states a) :: Event.waitLog :: Event.sleepEv (1/2) ::
      off_wait_events states (a + 1) l

/- Events of the webserver-wait loop whose first successful attempt is
attempt a + k, counted from attempt a. -/
def web_wait_events (probes : ℕ → ℤ × String) : ℕ → ℕ → List Event
  | a, 0 => [Event.waitLog, Event.wgetAttempt (probes a).1]
  | a, l + 1 =>
    Event.waitLog :: Event.wgetAttempt (probes a).1 :: Event.wgetFailLog ::
      Event.sleepEv 1 :: web_wait_events probes (a + 1) l

/- An observation of a still-running batch. -/
def mkObs (t : ℚ) (sz : ℕ) (pl : List String) (wl : List (List String)) : Obs :=
  { now := t, exited := none, wgetLines := wl, ping_size := sz, pingLines := pl }

/- The polls a + 0, ..., a + (l - 1) of a run, built from time, size,
ping-line and wget-line schedules. -/
def pollTrace (t : ℕ → ℚ) (sz : ℕ → ℕ) (pl : ℕ → List String)
    (wl : ℕ → List (List String)) : ℕ → ℕ → List Obs
  | _, 0 => []
  | a, l + 1 => mkObs (t a) (sz a) (pl a) (wl a) :: pollTrace t sz pl wl (a + 1) l

/-- Claim C1, counterexample.  The claim reads the no-progress test against
progressSize() in the spec's sense (total bytes written to the worker
sinks).  The code instead polls PING_FILE.size (line 124).  Below the
worker sinks are byte-for-byte constant across two polls 4 seconds apart
(strictly longer than noProgressTimeout = 3), the batch is still running
and the liveness samples are fine; because the ping log kept growing the
detector does not declare a hang but keeps polling, refuting the claim as
stated. -/
theorem c1_counterexample :
    spec_progressSize (⟨1, none, [["w"]], 10, ["64 bytes from h: seq=1"]⟩ : Obs) =
      spec_progressSize (⟨5, none, [["w"]], 20, ["64 bytes from h: seq=1"]⟩ : Obs)
    ∧ (5 : ℚ) - 1 > TIMEOUT
    ∧ (stress_run ⟨"h", 5, 1⟩ 9 ⟨0, 0⟩ ⟨0, 0, 0, 0, 0, 0, 0⟩
        [⟨1, none, [["w"]], 10, ["64 bytes from h: seq=1"]⟩,
         ⟨5, none, [["w"]], 20, ["64 bytes from h: seq=1"]⟩]).2 =
      RunOut.pending ⟨5, 20⟩ ⟨0, 0, 0, 0, 0, 0, 0⟩ := by
  refine ⟨rfl, by norm_num [TIMEOUT], by decide⟩

/-- Claim C1 (amended): for every poll in which the batch is still running,
if the polled size — PING_FILE.size, the liveness log, not the workers'
output size — equals the last recorded size and strictly more than
noProgressTimeout (3.0 s) elapsed since the last observed change, the
iteration is classified Hung with the no-progress condition set,
regardless of the liveness sample state, and the hang stats are updated. -/
theorem c1_no_progress_hang (cfg : Config) (pid : ℕ) (st : DetState) (stats : Stats) (o : Obs)
    (hrun : o.exited = none) (hsz : o.ping_size = st.last_size)
    (ht : o.now - st.last_change > TIMEOUT) :
    stress_step cfg pid st stats o =
      ([Event.hangLog (ping_failed cfg.target o.pingLines),
        Event.killCmd ("kill -9 " ++ toString pid), Event.recoveryCompleted],
       StepRes.hungRes true (ping_failed cfg.target o.pingLines) (hang_stats stats o.now)) := by
  have hnp : no_progress st o = true := by
    simp [no_progress, hsz, ht]
  simp [stress_step, hrun, hnp]

/-- Witness for c1_no_progress_hang: a concrete poll, 4 seconds without a
size change, with the liveness sample itself also failing. -/
theorem c1_no_progress_hang_witness :
    stress_step ⟨"h", 5, 1⟩ 3 ⟨0, 0⟩ ⟨0, 0, 0, 0, 0, 0, 0⟩ ⟨4, none, [], 0, ["badline"]⟩ =
      ([Event.hangLog (ping_failed "h" ["badline"]),
        Event.killCmd ("kill -9 " ++ toString 3), Event.recoveryCompleted],
       StepRes.hungRes true (ping_failed "h" ["badline"])
         (hang_stats ⟨0, 0, 0, 0, 0, 0, 0⟩ 4)) :=
  c1_no_progress_hang ⟨"h", 5, 1⟩ 3 ⟨0, 0⟩ ⟨0, 0, 0, 0, 0, 0, 0⟩
    ⟨4, none, [], 0, ["badline"]⟩ rfl rfl (by norm_num [TIMEOUT])

/-- Claim C2: on every poll in which the batch is still running and the
most recent liveness sample exists and indicates failure (line 125), the
iteration is classified Hung with the probe-failure flag set on that very
poll — the sampled size and detector state are arbitrary, so in
particular a size increase on this same poll does not prevent it. -/
theorem c2_probe_failure_hang (cfg : Config) (pid : ℕ) (st : DetState) (stats : Stats) (o : Obs)
    (hrun : o.exited = none) (hpf : ping_failed cfg.target o.pingLines = true) :
    stress_step cfg pid st stats o =
      ([Event.hangLog true, Event.killCmd ("kill -9 " ++ toString pid), Event.recoveryCompleted],
       StepRes.hungRes (no_progress st o) true (hang_stats stats o.now)) := by
  simp [stress_step, hrun, hpf]

/-- Witness for c2_probe_failure_hang: the ping size just grew from 5 to 9
on this poll, yet the failing last ping line hangs the iteration. -/
theorem c2_probe_failure_hang_witness :
    stress_step ⟨"h", 5, 1⟩ 8 ⟨0, 5⟩ ⟨0, 0, 0, 0, 0, 0, 0⟩ ⟨1, none, [], 9, ["Request timeout"]⟩ =
      ([Event.hangLog true, Event.killCmd ("kill -9 " ++ toString 8), Event.recoveryCompleted],
       StepRes.hungRes (no_progress ⟨0, 5⟩ ⟨1, none, [], 9, ["Request timeout"]⟩) true
         (hang_stats ⟨0, 0, 0, 0, 0, 0, 0⟩ 1)) :=
  c2_probe_failure_hang ⟨"h", 5, 1⟩ 8 ⟨0, 5⟩ ⟨0, 0, 0, 0, 0, 0, 0⟩
    ⟨1, none, [], 9, ["Request timeout"]⟩ rfl (by decide)

/- Unfolding lemmas for stress_run on a cons, one per step outcome. -/
theorem stress_run_cons_cont {cfg : Config} {pid : ℕ} {st st2 : DetState} {stats : Stats}
    {o : Obs} {rest : List Obs} {evs : List Event}
    (h : stress_step cfg pid st stats o = (evs, StepRes.cont st2)) :
    stress_run cfg pid st stats (o :: rest) =
      (evs ++ (stress_run cfg pid st2 stats rest).1, (stress_run cfg pid st2 stats rest).2) := by
  simp only [stress_run, h]

theorem stress_run_cons_hung {cfg : Config} {pid : ℕ} {st : DetState} {stats : Stats}
    {o : Obs} {rest : List Obs} {evs : List Event} {np pf : Bool} {s2 : Stats}
    (h : stress_step cfg pid st stats o = (evs, StepRes.hungRes np pf s2)) :
    stress_run cfg pid st stats (o :: rest) = (evs, RunOut.hungOut np pf s2) := by
  simp only [stress_run, h]

theorem stress_run_cons_completed {cfg : Config} {pid : ℕ} {st : DetState} {stats : Stats}
    {o : Obs} {rest : List Obs} {evs : List Event} {s2 : Option Stats}
    (h : stress_step cfg pid st stats o = (evs, StepRes.completedRes s2)) :
    stress_run cfg pid st stats (o :: rest) = (evs, RunOut.completedOut s2) := by
  simp only [stress_run, h]

theorem stress_run_cons_fatal {cfg : Config} {pid : ℕ} {st : DetState} {stats : Stats}
    {o : Obs} {rest : List Obs} {evs : List Event}
    (h : stress_step cfg pid st stats o = (evs, StepRes.fatalRes)) :
    stress_run cfg pid st stats (o :: rest) = (evs, RunOut.fatalOut) := by
  simp only [stress_run, h]

/- Core invariant argument for the no-hang property: the detector state
always records the time of some earlier poll k whose size equals the size
of the previous poll; if the polled size grows across every window longer
than TIMEOUT and the ping samples stay fine, the hang branch is never
taken and the final exit observation reaches the success branch. -/
theorem stress_run_steady (cfg : Config) (pid : ℕ) (t : ℕ → ℚ) (sz : ℕ → ℕ)
    (pl : ℕ → List String) (wl : ℕ → List (List String)) (n : ℕ)
    (hwin : ∀ i j, i < j → j ≤ n → t j - t i > TIMEOUT → sz i < sz j)
    (hping : ∀ m, 1 ≤ m → m ≤ n → ping_failed cfg.target (pl m) = false)
    (oend : Obs) (hrc : oend.exited = some 0) (hsv : all_saved oend.wgetLines = true) :
    ∀ (l a : ℕ) (st : DetState) (stats : Stats), a + l = n + 1 → 1 ≤ a →
      (∃ k, k < a ∧ st.last_change = t k ∧ st.last_size = sz k ∧ sz k = sz (a - 1)) →
      RunOut.isCompleted (stress_run cfg pid st stats (pollTrace t sz pl wl a l ++ [oend])).2
        = true := by
  intro l
  induction l with
  | zero =>
    intro a st stats hsum ha hinv
    have hstep : stress_step cfg pid st stats oend =
        ([], StepRes.completedRes
          (completed_update stats oend.wgetLines cfg.post_size cfg.proc_count)) := by
      simp [stress_step, hrc, hsv]
    simp [pollTrace, stress_run, hstep, RunOut.isCompleted]
  | succ l ih =>
    intro a st stats hsum ha hinv
    obtain ⟨k, hk, hlc, hls, hkeq⟩ := hinv
    have han : a ≤ n := by omega
    have hpf : ping_failed cfg.target (pl a) = false := hping a ha han
    have hnp : no_progress st (mkObs (t a) (sz a) (pl a) (wl a)) = false := by
      by_cases hs : sz a = st.last_size
      · have hnt : ¬ (t a - t k > TIMEOUT) := by
          intro hgt
          have hlt := hwin k a (by omega) han hgt
          have hsk : sz a = sz k := by rw [hs, hls]
          omega
        simp [no_progress, mkObs, hs, hlc, hnt]
      · simp [no_progress, mkObs, hs]
    simp only [mkObs] at hnp
    rw [pollTrace, List.cons_append]
    by_cases hs : sz a = st.last_size
    · have hb : (sz a == st.last_size) = true := by simp [hs]
      have hstep : stress_step cfg pid st stats (mkObs (t a) (sz a) (pl a) (wl a)) =
          ([Event.statusLog, Event.sleepEv LOG_DELAY], StepRes.cont st) := by
        simp [stress_step, mkObs, hnp, hpf, hb]
      rw [stress_run_cons_cont hstep]
      refine ih (a + 1) st stats (by omega) (by omega) ⟨k, by omega, hlc, hls, ?_⟩
      have hska : sz a = sz k := by rw [hs, hls]
      simpa using hska.symm
    · have hb : (sz a == st.last_size) = false := by simpa using hs
      have hstep : stress_step cfg pid st stats (mkObs (t a) (sz a) (pl a) (wl a)) =
          ([Event.statusLog, Event.sleepEv LOG_DELAY],
           StepRes.cont (DetState.mk (t a) (sz a))) := by
        simp [stress_step, mkObs, hnp, hpf, hb]
      rw [stress_run_cons_cont hstep]
      exact ih (a + 1) (DetState.mk (t a) (sz a)) stats (by omega) (by omega)
        ⟨a, by omega, rfl, rfl, by simp⟩

/-- Claim C3, counterexample.  The claim reads progressSize() in the
spec's sense (bytes in the worker sinks).  Below the worker sinks strictly
grow from poll to poll (consecutive polls less than noProgressTimeout
apart from the start of the run), every liveness sample is a success, and
the batch is still running — yet the detector declares Hung with the
no-progress condition set, because the size it actually polls is
PING_FILE.size (line 124), which stayed at 30 for the 3.5 seconds
separating the two polls. -/
theorem c3_counterexample :
    spec_progressSize (⟨1/2, none, [["a"]], 30, ["64 bytes from h: seq=1"]⟩ : Obs) <
      spec_progressSize (⟨4, none, [["ab"]], 30, ["64 bytes from h: seq=1"]⟩ : Obs)
    ∧ ping_failed "h" ["64 bytes from h: seq=1"] = false
    ∧ (stress_run ⟨"h", 5, 1⟩ 9 ⟨0, 0⟩ ⟨0, 0, 0, 0, 0, 0, 0⟩
        [⟨1/2, none, [["a"]], 30, ["64 bytes from h: seq=1"]⟩,
         ⟨4, none, [["ab"]], 30, ["64 bytes from h: seq=1"]⟩]).2 =
      RunOut.hungOut true false ⟨0, 0, 0, 0, 1, 4, 0⟩ := by
  refine ⟨by decide, by decide, ?_⟩
  have hgt : ((4 : ℚ) - 1/2 > TIMEOUT) := by norm_num [TIMEOUT]
  have hnp : no_progress ⟨1/2, 30⟩
      (⟨4, none, [["ab"]], 30, ["64 bytes from h: seq=1"]⟩ : Obs) = true := by
    simp only [no_progress]
    dsimp only
    rw [decide_eq_true hgt]
    rfl
  have hpf : ping_failed "h" ["64 bytes from h: seq=1"] = false := by decide
  have h1 : stress_step ⟨"h", 5, 1⟩ 9 ⟨0, 0⟩ ⟨0, 0, 0, 0, 0, 0, 0⟩
      (⟨1/2, none, [["a"]], 30, ["64 bytes from h: seq=1"]⟩ : Obs) =
      ([Event.statusLog, Event.sleepEv LOG_DELAY], StepRes.cont ⟨1/2, 30⟩) := rfl
  have h2 : stress_step ⟨"h", 5, 1⟩ 9 ⟨1/2, 30⟩ ⟨0, 0, 0, 0, 0, 0, 0⟩
      (⟨4, none, [["ab"]], 30, ["64 bytes from h: seq=1"]⟩ : Obs) =
      ([Event.hangLog false, Event.killCmd ("kill -9 " ++ toString 9), Event.recoveryCompleted],
       StepRes.hungRes true false ⟨0, 0, 0, 0, 1, 4, 0⟩) := by
    simp only [stress_step]
    rw [hnp]
    simp [hpf, hang_stats]
  rw [stress_run_cons_cont h1, stress_run_cons_hung h2]

/-- Claim C3 (amended): for every poll sequence in which the polled size —
PING_FILE.size, the liveness log, not the workers' output size — starts at
0 and strictly increases across every pair of polls separated by more
than noProgressTimeout, and in which the most recent liveness sample is
always a success, the detector never classifies the iteration as Hung: it
keeps polling and, when the batch finishes with exit status zero and all
saved markers present, classifies Completed. -/
theorem c3_steady_progress_completes (cfg : Config) (pid : ℕ) (t : ℕ → ℚ) (sz : ℕ → ℕ)
    (pl : ℕ → List String) (wl : ℕ → List (List String)) (n : ℕ) (stats : Stats)
    (hsz0 : sz 0 = 0)
    (hwin : ∀ i j, i < j → j ≤ n → t j - t i > TIMEOUT → sz i < sz j)
    (hping : ∀ m, 1 ≤ m → m ≤ n → ping_failed cfg.target (pl m) = false)
    (oend : Obs) (hrc : oend.exited = some 0) (hsv : all_saved oend.wgetLines = true) :
    RunOut.isCompleted
      (stress_run cfg pid (DetState.mk (t 0) 0) stats (pollTrace t sz pl wl 1 n ++ [oend])).2
      = true :=
  stress_run_steady cfg pid t sz pl wl n hwin hping oend hrc hsv n 1 (DetState.mk (t 0) 0)
    stats (by omega) (by omega) ⟨0, by omega, rfl, by simp [hsz0], by simp⟩

/-- Witness for c3_steady_progress_completes: one poll with a growing ping
log and a healthy sample, then a successful exit. -/
theorem c3_steady_progress_completes_witness :
    RunOut.isCompleted
      (stress_run ⟨"h", 5, 1⟩ 7 (DetState.mk ((fun k => (k : ℚ)) 0) 0) ⟨0, 0, 0, 0, 0, 0, 0⟩
        (pollTrace (fun k => (k : ℚ)) (fun k => k) (fun _ => ["64 bytes from h: seq=1"])
          (fun _ => [["x"]]) 1 1 ++
          [⟨2, some 0, [["y - \x60/dev/null\x27 saved [5/5]"]], 9, []⟩])).2 = true :=
  c3_steady_progress_completes ⟨"h", 5, 1⟩ 7 (fun k => (k : ℚ)) (fun k => k)
    (fun _ => ["64 bytes from h: seq=1"]) (fun _ => [["x"]]) 1 ⟨0, 0, 0, 0, 0, 0, 0⟩ rfl
    (fun i j hij _ _ => hij)
    (fun _ _ _ => (by decide : ping_failed "h" ["64 bytes from h: seq=1"] = false))
    ⟨2, some 0, [["y - \x60/dev/null\x27 saved [5/5]"]], 9, []⟩ rfl (by decide)

/-- Claim C4: once the dispatching process has exited, the iteration is
treated as successful (the success branch of line 115 is taken) if and
only if the exit status is zero and every worker's final output line
carries the saved marker; in every other combination the program logs and
raises SystemExit (line 122), a fatal non-recoverable result: the main
loop performs no recovery and starts no further batch. -/
theorem c4_exit_protocol (cfg : Config) (pid : ℕ) (st : DetState) (stats : Stats) (o : Obs)
    (rc : ℤ) (hex : o.exited = some rc) :
    ((∃ s2, stress_step cfg pid st stats o = ([], StepRes.completedRes s2)) ↔
      (rc = 0 ∧ all_saved o.wgetLines = true))
    ∧ (¬ (rc = 0 ∧ all_saved o.wgetLines = true) →
        stress_step cfg pid st stats o =
          ([Event.wgetExitLog rc, Event.sysExit fatal_msg], StepRes.fatalRes)
        ∧ ∀ (stats0 : Stats) (t0 : ℚ) (its : List IterIn),
            stress_loop cfg stats0 (IterIn.mk pid t0 [o] :: its) =
              [Event.batchStart pid, Event.wgetExitLog rc, Event.sysExit fatal_msg]) := by
  constructor
  · constructor
    · rintro ⟨s2, hstep⟩
      by_cases hc : rc = 0 ∧ all_saved o.wgetLines = true
      · exact hc
      · simp [stress_step, hex, hc] at hstep
    · intro hc
      exact ⟨completed_update stats o.wgetLines cfg.post_size cfg.proc_count,
        by simp [stress_step, hex, hc]⟩
  · intro hc
    have hstep : stress_step cfg pid st stats o =
        ([Event.wgetExitLog rc, Event.sysExit fatal_msg], StepRes.fatalRes) := by
      simp [stress_step, hex, hc]
    refine ⟨hstep, ?_⟩
    intro stats0 t0 its
    have hstep2 : stress_step cfg pid (DetState.mk t0 0) { stats0 with seq := stats0.seq + 1 }
        o = ([Event.wgetExitLog rc, Event.sysExit fatal_msg], StepRes.fatalRes) := by
      simp [stress_step, hex, hc]
    have hrun : stress_run cfg pid (DetState.mk t0 0) { stats0 with seq := stats0.seq + 1 }
        [o] = ([Event.wgetExitLog rc, Event.sysExit fatal_msg], RunOut.fatalOut) :=
      stress_run_cons_fatal hstep2
    simp [stress_loop, hrun]

/-- Witness for c4_exit_protocol: exit status 3 with a marker-less final
line is fatal, and the session trace ends at the sys.exit. -/
theorem c4_exit_protocol_witness :
    stress_step ⟨"h", 5, 1⟩ 4 ⟨0, 0⟩ ⟨0, 0, 0, 0, 0, 0, 0⟩ ⟨2, some 3, [["oops"]], 0, []⟩ =
      ([Event.wgetExitLog 3, Event.sysExit fatal_msg], StepRes.fatalRes)
    ∧ stress_loop ⟨"h", 5, 1⟩ ⟨0, 0, 0, 0, 0, 0, 0⟩
        [IterIn.mk 4 0 [⟨2, some 3, [["oops"]], 0, []⟩]] =
      [Event.batchStart 4, Event.wgetExitLog 3, Event.sysExit fatal_msg] := by
  have h := (c4_exit_protocol ⟨"h", 5, 1⟩ 4 ⟨0, 0⟩ ⟨0, 0, 0, 0, 0, 0, 0⟩
    ⟨2, some 3, [["oops"]], 0, []⟩ 3 rfl).2 (by decide)
  exact ⟨h.1, h.2 ⟨0, 0, 0, 0, 0, 0, 0⟩ 0 []⟩

/- A run that ends hung produced the hang log, the kill of the xargs pid
and the completed recovery as its final three events. -/
theorem stress_run_hung_suffix (cfg : Config) (pid : ℕ) :
    ∀ (obs : List Obs) (st : DetState) (stats : Stats) (np pf : Bool) (s2 : Stats),
      (stress_run cfg pid st stats obs).2 = RunOut.hungOut np pf s2 →
      ∃ pre, (stress_run cfg pid st stats obs).1 =
        pre ++ [Event.hangLog pf, Event.killCmd ("kill -9 " ++ toString pid),
                Event.recoveryCompleted] := by
  intro obs
  induction obs with
  | nil =>
    intro st stats np pf s2 h
    simp [stress_run] at h
  | cons o rest ih =>
    intro st stats np pf s2 h
    cases hexit : o.exited with
    | some rc =>
      by_cases hc : rc = 0 ∧ all_saved o.wgetLines = true
      · have hstep : stress_step cfg pid st stats o = ([], StepRes.completedRes
            (completed_update stats o.wgetLines cfg.post_size cfg.proc_count)) := by
          simp [stress_step, hexit, hc]
        rw [stress_run_cons_completed hstep] at h
        simp at h
      · have hstep : stress_step cfg pid st stats o =
            ([Event.wgetExitLog rc, Event.sysExit fatal_msg], StepRes.fatalRes) := by
          simp [stress_step, hexit, hc]
        rw [stress_run_cons_fatal hstep] at h
        simp at h
    | none =>
      by_cases hh : (no_progress st o || ping_failed cfg.target o.pingLines) = true
      · have hstep : stress_step cfg pid st stats o =
            ([Event.hangLog (ping_failed cfg.target o.pingLines),
              Event.killCmd ("kill -9 " ++ toString pid), Event.recoveryCompleted],
             StepRes.hungRes (no_progress st o) (ping_failed cfg.target o.pingLines)
               (hang_stats stats o.now)) := by
          simp [stress_step, hexit, hh]
        rw [stress_run_cons_hung hstep] at h ⊢
        simp only [RunOut.hungOut.injEq] at h
        obtain ⟨h1, h2, h3⟩ := h
        subst h2
        exact ⟨[], by simp⟩
      · have hstep : stress_step cfg pid st stats o =
            ([Event.statusLog, Event.sleepEv LOG_DELAY],
             StepRes.cont (if o.ping_size == st.last_size then st
               else DetState.mk o.now o.ping_size)) := by
          simp [stress_step, hexit, hh]
        rw [stress_run_cons_cont hstep] at h ⊢
        obtain ⟨pre, hpre⟩ := ih _ _ np pf s2 (by simpa using h)
        exact ⟨[Event.statusLog, Event.sleepEv LOG_DELAY] ++ pre,
          by simp [hpre, List.append_assoc]⟩

/-- Claim C7, counterexample: the claim says a Hung verdict sends a kill
signal to the process group of the batch's workers.  On a concrete Hung
poll the code issues exactly the command kill -9 4242 against the single
pid of the xargs dispatching process (line 131); the command's pid
argument is not negated, so it does not address a process group (the
concurrently running wget workers are not signalled). -/
theorem c7_counterexample :
    stress_step ⟨"h", 5, 1⟩ 4242 ⟨0, 0⟩ ⟨0, 0, 0, 0, 0, 0, 0⟩
      ⟨1, none, [], 7, ["Request timeout"]⟩ =
      ([Event.hangLog true, Event.killCmd "kill -9 4242", Event.recoveryCompleted],
       StepRes.hungRes false true ⟨0, 0, 0, 0, 1, 1, 0⟩)
    ∧ kills_group "kill -9 4242" = false :=
  ⟨by decide, by decide⟩

/-- Claim C7 (amended): an iteration whose poll trips the hang test
(line 126) increments the hang counter by exactly one, records the
last-hang timestamp, sends SIGKILL to the pid of the batch's dispatching
xargs process (not to the workers' process group), and completes the
recovery routine before returning; in the main loop the recovery of a
hung iteration therefore precedes the start of the next iteration's
batch. -/
theorem c7_hang_recovery :
    (∀ (cfg : Config) (pid : ℕ) (st : DetState) (stats : Stats) (o : Obs),
      o.exited = none →
      (no_progress st o || ping_failed cfg.target o.pingLines) = true →
      stress_step cfg pid st stats o =
        ([Event.hangLog (ping_failed cfg.target o.pingLines),
          Event.killCmd ("kill -9 " ++ toString pid), Event.recoveryCompleted],
         StepRes.hungRes (no_progress st o) (ping_failed cfg.target o.pingLines)
           { stats with last_hang := o.now, hanged := stats.hanged + 1 }))
    ∧ (∀ (cfg : Config) (stats0 : Stats) (it1 it2 : IterIn) (rest : List IterIn)
        (np pf : Bool) (s2 : Stats),
        (stress_run cfg it1.pid (DetState.mk it1.t0 0) { stats0 with seq := stats0.seq + 1 }
          it1.obs).2 = RunOut.hungOut np pf s2 →
        (∃ pre, stress_loop cfg stats0 (it1 :: it2 :: rest) =
          Event.batchStart it1.pid :: pre ++
            [Event.hangLog pf, Event.killCmd ("kill -9 " ++ toString it1.pid),
             Event.recoveryCompleted] ++ stress_loop cfg s2 (it2 :: rest))
        ∧ ∃ tail, stress_loop cfg s2 (it2 :: rest) = Event.batchStart it2.pid :: tail) := by
  constructor
  · intro cfg pid st stats o hrun hcond
    simp [stress_step, hrun, hcond, hang_stats]
  · intro cfg stats0 it1 it2 rest np pf s2 h
    obtain ⟨pre, hpre⟩ := stress_run_hung_suffix cfg it1.pid it1.obs _ _ np pf s2 h
    constructor
    · refine ⟨pre, ?_⟩
      simp only [stress_loop, h, hpre]
      simp [List.append_assoc]
    · exact ⟨_, rfl⟩

/-- Witness for c7_hang_recovery: a concrete hung poll and the resulting
two-iteration session trace. -/
theorem c7_hang_recovery_witness :
    stress_step ⟨"h", 5, 1⟩ 6 ⟨0, 0⟩ ⟨0, 0, 0, 0, 0, 0, 0⟩ ⟨2, none, [], 3, ["nope"]⟩ =
      ([Event.hangLog (ping_failed "h" ["nope"]),
        Event.killCmd ("kill -9 " ++ toString 6), Event.recoveryCompleted],
       StepRes.hungRes (no_progress ⟨0, 0⟩ ⟨2, none, [], 3, ["nope"]⟩)
         (ping_failed "h" ["nope"]) ⟨0, 0, 0, 0, 1, 2, 0⟩)
    ∧ ((∃ pre, stress_loop ⟨"h", 5, 1⟩ ⟨0, 0, 0, 0, 0, 0, 0⟩
          [⟨6, 0, [⟨2, none, [], 3, ["nope"]⟩]⟩, ⟨7, 2, []⟩] =
        Event.batchStart 6 :: pre ++
          [Event.hangLog true, Event.killCmd ("kill -9 " ++ toString 6),
           Event.recoveryCompleted] ++
          stress_loop ⟨"h", 5, 1⟩ ⟨1, 0, 0, 0, 1, 2, 0⟩ [⟨7, 2, []⟩])
      ∧ ∃ tail, stress_loop ⟨"h", 5, 1⟩ ⟨1, 0, 0, 0, 1, 2, 0⟩ [⟨7, 2, []⟩] =
          Event.batchStart 7 :: tail) :=
  ⟨c7_hang_recovery.1 ⟨"h", 5, 1⟩ 6 ⟨0, 0⟩ ⟨0, 0, 0, 0, 0, 0, 0⟩
      ⟨2, none, [], 3, ["nope"]⟩ rfl (by decide),
   c7_hang_recovery.2 ⟨"h", 5, 1⟩ ⟨0, 0, 0, 0, 0, 0, 0⟩ ⟨6, 0, [⟨2, none, [], 3, ["nope"]⟩]⟩
      ⟨7, 2, []⟩ [] false true ⟨1, 0, 0, 0, 1, 2, 0⟩ (by decide)⟩

/- The shutdown-wait loop stops at the first poll that reports 'shut off',
having logged and slept after every earlier poll. -/
theorem shutdown_poll_off (states : ℕ → String) :
    ∀ (k a fuel : ℕ), k < fuel →
      (∀ j, j < k → states (a + j) ≠ off_state) → states (a + k) = off_state →
      shutdown_poll states a fuel = (off_wait_events states a k, some (a + k)) := by
  intro k
  induction k with
  | zero =>
    intro a fuel hf hmiss hoff
    rcases fuel with _ | f
    · omega
    · simp only [shutdown_poll, off_wait_events]
      rw [if_pos (by simpa using hoff)]
      simp
  | succ k ih =>
    intro a fuel hf hmiss hoff
    rcases fuel with _ | f
    · omega
    · have hne : states a ≠ off_state := by simpa using hmiss 0 (by omega)
      have hrec := ih (a + 1) f (by omega)
        (fun j hj => by
          rw [show a + 1 + j = a + (j + 1) from by omega]
          exact hmiss (j + 1) (by omega))
        (by rw [show a + 1 + k = a + (k + 1) from by omega]; exact hoff)
      simp only [shutdown_poll, off_wait_events]
      rw [if_neg hne, hrec]
      simp [show a + 1 + k = a + (k + 1) from by omega]

/- Without a 'shut off' answer the shutdown-wait loop never breaks,
whatever the fuel: there is no retry cap. -/
theorem shutdown_poll_miss (states : ℕ → String) (hmiss : ∀ j, states j ≠ off_state) :
    ∀ (fuel a : ℕ), (shutdown_poll states a fuel).2 = none := by
  intro fuel
  induction fuel with
  | zero => intro a; simp [shutdown_poll]
  | succ f ih =>
    intro a
    simp only [shutdown_poll]
    rw [if_neg (hmiss a)]
    exact ih (a + 1)

theorem shutdown_poll_no_cmd (states : ℕ → String) :
    ∀ (fuel a : ℕ), ∀ e ∈ (shutdown_poll states a fuel).1,
      (match e with | Event.shutdownCmd _ => true | _ => false) = false := by
  intro fuel
  induction fuel with
  | zero => intro a e he; simp [shutdown_poll] at he
  | succ f ih =>
    intro a e he
    by_cases hoff : states a = off_state
    · simp [shutdown_poll, hoff] at he
      subst he; rfl
    · simp only [shutdown_poll] at he
      rw [if_neg hoff] at he
      simp only [List.mem_cons] at he
      rcases he with rfl | rfl | rfl | he
      · rfl
      · rfl
      · rfl
      · exact ih (a + 1) e he

theorem webserver_poll_no_cmd (probes : ℕ → ℤ × String) :
    ∀ (fuel a : ℕ), ∀ e ∈ (webserver_poll probes a fuel).1,
      (match e with | Event.shutdownCmd _ => true | _ => false) = false := by
  intro fuel
  induction fuel with
  | zero => intro a e he; simp [webserver_poll] at he
  | succ f ih =>
    intro a e he
    by_cases hok : web_ok (probes a) = true
    · simp only [webserver_poll] at he
      rw [if_pos hok] at he
      simp only [List.mem_cons] at he
      rcases he with rfl | he
      · rfl
      · simp at he
        subst he; rfl
    · simp only [webserver_poll] at he
      rw [if_neg hok] at he
      simp only [List.mem_cons] at he
      rcases he with rfl | rfl | rfl | rfl | he
      · rfl
      · rfl
      · rfl
      · rfl
      · exact ih (a + 1) e he

theorem shutdown_count_poll (states : ℕ → String) (fuel a : ℕ) :
    shutdown_count (shutdown_poll states a fuel).1 = 0 :=
  List.countP_eq_zero.2 (by simpa using shutdown_poll_no_cmd states fuel a)

theorem shutdown_count_web (probes : ℕ → ℤ × String) (fuel a : ℕ) :
    shutdown_count (webserver_poll probes a fuel).1 = 0 :=
  List.countP_eq_zero.2 (by simpa using webserver_poll_no_cmd probes fuel a)

/-- Claim C5: restart_guest issues the virsh shutdown command exactly once
in every execution; the shutdown-wait loop advances past ShuttingDown
exactly at the first kvm_state poll that returns 'shut off', logging and
sleeping half a second after every other answer; and if no poll ever
returns 'shut off' the loop never breaks, whatever fuel it is given — no
retry cap. -/
theorem c5_shutdown_wait :
    (∀ (guest : String) (states : ℕ → String) (probes : ℕ → ℤ × String) (f1 f2 : ℕ),
      shutdown_count (restart_guest guest states probes f1 f2).1 = 1)
    ∧ (∀ (states : ℕ → String) (k fuel : ℕ),
        (∀ j, j < k → states j ≠ off_state) → states k = off_state → k < fuel →
        shutdown_poll states 0 fuel = (off_wait_events states 0 k, some k))
    ∧ (∀ (states : ℕ → String) (fuel : ℕ), (∀ j, states j ≠ off_state) →
        (shutdown_poll states 0 fuel).2 = none) := by
  refine ⟨?_, ?_, ?_⟩
  · intro guest states probes f1 f2
    have h1 := shutdown_count_poll states f1 0
    have h2 := shutdown_count_web probes f2 0
    unfold shutdown_count at h1 h2
    simp only [restart_guest]
    cases hsd : (shutdown_poll states 0 f1).2 with
    | none =>
      unfold shutdown_count
      dsimp only
      rw [List.countP_cons, h1]
      simp
    | some k =>
      unfold shutdown_count
      dsimp only
      rw [List.countP_append, List.countP_cons, List.countP_cons, List.countP_cons, h1, h2]
      simp
  · intro states k fuel hmiss hoff hf
    have h := shutdown_poll_off states k 0 fuel hf
      (fun j hj => by simpa using hmiss j hj) (by simpa using hoff)
    simpa using h
  · intro states fuel hmiss
    exact shutdown_poll_miss states hmiss fuel 0

/-- Witness for c5_shutdown_wait: two 'running' answers, then 'shut off'
on the third poll. -/
theorem c5_shutdown_wait_witness :
    shutdown_poll (fun n => if n < 2 then "running" else off_state) 0 5 =
      (off_wait_events (fun n => if n < 2 then "running" else off_state) 0 2, some 2) :=
  c5_shutdown_wait.2.1 (fun n => if n < 2 then "running" else off_state) 2 5
    (by decide) (by decide) (by decide)

/- The webserver-wait loop stops at the first successful probe, sleeping
one second after every failed attempt. -/
theorem webserver_poll_ok (probes : ℕ → ℤ × String) :
    ∀ (k a fuel : ℕ), k < fuel →
      (∀ j, j < k → web_ok (probes (a + j)) = false) → web_ok (probes (a + k)) = true →
      webserver_poll probes a fuel = (web_wait_events probes a k, some (a + k)) := by
  intro k
  induction k with
  | zero =>
    intro a fuel hf hmiss hok
    rcases fuel with _ | f
    · omega
    · simp only [webserver_poll, web_wait_events]
      rw [if_pos (by simpa using hok)]
      simp
  | succ k ih =>
    intro a fuel hf hmiss hok
    rcases fuel with _ | f
    · omega
    · have hne : ¬ (web_ok (probes a) = true) := by
        have := hmiss 0 (by omega)
        simp at this
        simp [this]
      have hrec := ih (a + 1) f (by omega)
        (fun j hj => by
          rw [show a + 1 + j = a + (j + 1) from by omega]
          exact hmiss (j + 1) (by omega))
        (by rw [show a + 1 + k = a + (k + 1) from by omega]; exact hok)
      simp only [webserver_poll, web_wait_events]
      rw [if_neg hne, hrec]
      simp [show a + 1 + k = a + (k + 1) from by omega]

/- Without a successful probe the webserver-wait loop never returns,
whatever the fuel: there is no retry cap. -/
theorem webserver_poll_miss (probes : ℕ → ℤ × String)
    (hmiss : ∀ j, web_ok (probes j) = false) :
    ∀ (fuel a : ℕ), (webserver_poll probes a fuel).2 = none := by
  intro fuel
  induction fuel with
  | zero => intro a; simp [webserver_poll]
  | succ f ih =>
    intro a
    simp only [webserver_poll]
    rw [if_neg (by simp [hmiss a])]
    exact ih (a + 1)

/-- Claim C6: a probe attempt succeeds exactly when its exit status is
zero and the saved-confirmation marker occurs in its output; the
webserver-wait loop returns exactly at the first successful attempt,
logging the failure and sleeping one second after every other attempt;
and if no attempt ever succeeds the loop keeps retrying, whatever fuel it
is given — no retry cap. -/
theorem c6_webserver_wait :
    (∀ (p : ℤ × String), web_ok p = true ↔ (p.1 = 0 ∧ pyIn saved_marker p.2 = true))
    ∧ (∀ (probes : ℕ → ℤ × String) (k fuel : ℕ),
        (∀ j, j < k → web_ok (probes j) = false) → web_ok (probes k) = true → k < fuel →
        webserver_poll probes 0 fuel = (web_wait_events probes 0 k, some k))
    ∧ (∀ (probes : ℕ → ℤ × String) (fuel : ℕ), (∀ j, web_ok (probes j) = false) →
        (webserver_poll probes 0 fuel).2 = none) := by
  refine ⟨?_, ?_, ?_⟩
  · intro p
    simp [web_ok]
  · intro probes k fuel hmiss hok hf
    have h := webserver_poll_ok probes k 0 fuel hf
      (fun j hj => by simpa using hmiss j hj) (by simpa using hok)
    simpa using h
  · intro probes fuel hmiss
    exact webserver_poll_miss probes hmiss fuel 0

/-- Witness for c6_webserver_wait: one refused attempt, then an attempt
with exit status 0 whose output carries the saved marker. -/
theorem c6_webserver_wait_witness :
    webserver_poll (fun n => if n < 1 then ((4 : ℤ), "conn refused")
        else ((0 : ℤ), "x - \x60/dev/null\x27 saved [5/5]")) 0 4 =
      (web_wait_events (fun n => if n < 1 then ((4 : ℤ), "conn refused")
        else ((0 : ℤ), "x - \x60/dev/null\x27 saved [5/5]")) 0 1, some 1) :=
  c6_webserver_wait.2.1 (fun n => if n < 1 then ((4 : ℤ), "conn refused")
      else ((0 : ℤ), "x - \x60/dev/null\x27 saved [5/5]")) 1 4
    (by decide) (by decide) (by decide)

/-- Claim C8: however the try block of main ends — the SystemExit of the
protocol check, an interrupt delivered in any iteration phase (mid-poll
or mid-recovery), or another exception — the finally block removes every
scratch file the session created (payload file, argument-list file, ping
log, and every per-worker output file) and kills the liveness ping
process.  Signals whose default action bypasses the interpreter are
outside the embedding; termination is modelled as an exception reaching
the try block from an arbitrary point of the body. -/
theorem c8_cleanup (proc_count : ℕ) (body : List Event) (ending : BodyEnd)
    (f : ScratchFile) (hf : f ∈ created_files proc_count) :
    Event.removeF f ∈ main_run proc_count body ending
    ∧ Event.pingKill ∈ main_run proc_count body ending := by
  constructor
  · have hf2 : f ∈ [ScratchFile.post, ScratchFile.arg, ScratchFile.ping] ++
        (List.range proc_count).map ScratchFile.wget := by
      simpa [created_files] using hf
    have hmem : Event.removeF f ∈ cleanup_events proc_count := by
      simp only [cleanup_events]
      exact List.mem_append_left _ (List.mem_map_of_mem _ hf2)
    simp [main_run, hmem]
  · simp [main_run, cleanup_events]

/-- Witness for c8_cleanup: a session of two workers interrupted mid-poll
still removes the second worker's output file and kills the ping
process. -/
theorem c8_cleanup_witness :
    Event.removeF (ScratchFile.wget 1) ∈ main_run 2 [Event.statusLog] BodyEnd.interrupted
    ∧ Event.pingKill ∈ main_run 2 [Event.statusLog] BodyEnd.interrupted :=
  c8_cleanup 2 [Event.statusLog] BodyEnd.interrupted (ScratchFile.wget 1) (by decide)

/-- Claim C10: kvm_state is total over the hypervisor listing: for a
well-formed listing (every data line splits into exactly three fields
under split(None, 2)) in which the guest appears in no name field, it
returns the sentinel 'COULD NOT DETECT STATE' instead of raising; the
sentinel is not 'shut off', so the shutdown-wait loop treats an unlisted
guest as not yet off and keeps polling forever. -/
theorem c10_kvm_state_total (output_lines : List String) (guest : String)
    (hwf : ∀ l ∈ output_lines.drop 2, (splitNone2 l.toList).length = 3)
    (habs : ∀ l ∈ output_lines.drop 2, listing_name l ≠ guest) :
    kvm_state output_lines guest = some could_not_detect
    ∧ could_not_detect ≠ off_state
    ∧ ∀ fuel, (shutdown_poll (fun _ => could_not_detect) 0 fuel).2 = none := by
  refine ⟨?_, by decide,
    fun fuel => shutdown_poll_miss _
      (fun _ => (by decide : could_not_detect ≠ off_state)) fuel 0⟩
  have hall : (((output_lines.drop 2).map (fun l => splitNone2 l.toList)).all
      (fun t => t.length == 3)) = true := by
    simp only [List.all_eq_true, List.mem_map]
    rintro t ⟨l, hl, rfl⟩
    simpa using hwf l hl
  have hnil : ((output_lines.drop 2).map (fun l => splitNone2 l.toList)).filterMap
      (fun t =>
        match t with
        | [_, name, st] => if String.mk name = guest then some (String.mk st) else none
        | _ => none) = [] := by
    rw [List.filterMap_eq_nil_iff]
    intro t ht
    obtain ⟨l, hl, rfl⟩ := List.mem_map.1 ht
    obtain ⟨x, y, z, hxyz⟩ := List.length_eq_three.1 (hwf l hl)
    rw [hxyz]
    have hname : String.mk y ≠ guest := by
      have := habs l hl
      rw [listing_name, hxyz] at this
      simpa using this
    simp [hname]
  simp only [kvm_state]
  rw [if_pos hall, hnil]
  rfl

/-- Witness for c10_kvm_state_total: a two-guest listing that does not
mention the queried guest. -/
theorem c10_kvm_state_total_witness :
    kvm_state ["header", "----", " 1  guestA  running", " -  guestB  shut off"] "other" =
      some could_not_detect
    ∧ could_not_detect ≠ off_state
    ∧ (shutdown_poll (fun _ => could_not_detect) 0 3).2 = none := by
  have h := c10_kvm_state_total ["header", "----", " 1  guestA  running",
    " -  guestB  shut off"] "other" (by decide) (by decide)
  exact ⟨h.1, h.2.1, h.2.2 3⟩

end KvmNetStress
